import Mathlib

/-!
Shallow embedding of the orchestration layer of `src/core/trading_bot.py`
(class `TradingBot`): the lifecycle state machine, the five periodic loops,
the drawdown circuit breaker, the health-check/reconnection logic, the
error-list maintenance, the daily-reset bookkeeping, the market-update
handler, and the save-state/shutdown protocol.

External collaborators (exchange, websocket feed, risk manager, pair
manager, market data) are modelled as value-level oracles: each call the
orchestrator makes is represented by the value it returns or by a recorded
action, following the collaborator interfaces the code calls into.
-/

/-- The `BotState` enum of `trading_bot.py`. -/
inductive BotState where
  | INITIALIZING
  | RUNNING
  | PAUSED
  | STOPPING
  | STOPPED
  | ERROR
deriving DecidableEq, Repr

/-- Appending one message to `status.errors`, as done by
`initialize` (on failure) and by the `monitored` wrapper in
`_create_monitored_task`: a plain `list.append`, with no trimming. -/
def appendError (errors : List String) (e : String) : List String :=
  errors ++ [e]

/-- The error-trim pass of `_health_check_loop`:
`if len(self.status.errors) > 100: self.status.errors = self.status.errors[-50:]`.
Python's `l[-50:]` is the suffix of length 50, i.e. `drop (length - 50)`. -/
def healthTrim (errors : List String) : List String :=
  if errors.length > 100 then errors.drop (errors.length - 50) else errors

/-- Loop guard of `_market_scanner_task`:
`while not self._shutdown_event.is_set()`. -/
def marketScannerContinues (shutdownRequested : Bool) : Bool :=
  !shutdownRequested

/-- Loop guard of `_strategy_loop`: `while self.status.state == BotState.RUNNING`. -/
def strategyLoopContinues (st : BotState) : Bool :=
  st == BotState.RUNNING

/-- Loop guard of `_risk_monitor_loop`: `while self.status.state == BotState.RUNNING`. -/
def riskMonitorContinues (st : BotState) : Bool :=
  st == BotState.RUNNING

/-- Loop guard of `_performance_tracker_loop`:
`while self.status.state == BotState.RUNNING`. -/
def performanceTrackerContinues (st : BotState) : Bool :=
  st == BotState.RUNNING

/-- Loop guard of `_health_check_loop`: `while self.status.state == BotState.RUNNING`. -/
def healthCheckContinues (st : BotState) : Bool :=
  st == BotState.RUNNING

/-- Result of a `start()` call: the resulting lifecycle state, whether the
"Impossible de démarrer" warning was logged, and whether the main loop task
was created. -/
structure StartOut where
  state : BotState
  warned : Bool
  mainLoopStarted : Bool
deriving DecidableEq, Repr

/-- The `start()` entry point: if the current state is not in
`[BotState.STOPPED, BotState.ERROR]` it logs a warning and returns;
otherwise it sets the state to RUNNING and creates the main-loop task. -/
def startBot (st : BotState) : StartOut :=
  if !(st == BotState.STOPPED || st == BotState.ERROR) then
    { state := st, warned := true, mainLoopStarted := false }
  else
    { state := BotState.RUNNING, warned := false, mainLoopStarted := true }

/-- C1 counterexample: in state PAUSED with shutdown not requested, the
Risk Monitor loop's guard (`state == RUNNING`) is false, so the loop
terminates at its next liveness check instead of continuing — likewise the
Performance Tracker and Health Check loops — refuting the claim that every
monitoring loop keeps running its cycles under PAUSED. -/
theorem paused_kills_risk_monitor_cex :
    riskMonitorContinues BotState.PAUSED = false ∧
    performanceTrackerContinues BotState.PAUSED = false ∧
    healthCheckContinues BotState.PAUSED = false := by
  decide

/-- C1 (amended): when the lifecycle state is PAUSED and shutdown is not
requested, only the Market Scanner loop (whose guard is the shutdown flag)
performs its next liveness check and continues; the Risk Monitor,
Performance Tracker and Health Check loops, whose guard is
`state == RUNNING`, terminate at their next liveness check, as does the
Strategy Execution loop (so new order execution is indeed suppressed). -/
theorem paused_loop_liveness :
    marketScannerContinues false = true ∧
    riskMonitorContinues BotState.PAUSED = false ∧
    performanceTrackerContinues BotState.PAUSED = false ∧
    healthCheckContinues BotState.PAUSED = false ∧
    strategyLoopContinues BotState.PAUSED = false := by
  decide

/-- C5: `start()` invoked in any state other than STOPPED or ERROR is a
no-op — the state is unchanged, a warning is recorded, and the main loop is
not started; from STOPPED or ERROR it transitions the state to RUNNING and
starts the loops. -/
theorem start_only_from_stopped_or_error (st : BotState) :
    (st ≠ BotState.STOPPED → st ≠ BotState.ERROR →
      startBot st = { state := st, warned := true, mainLoopStarted := false }) ∧
    (st = BotState.STOPPED ∨ st = BotState.ERROR →
      startBot st = { state := BotState.RUNNING, warned := false,
                      mainLoopStarted := true }) := by
  cases st <;> simp [startBot]

/-- C5 witness: concrete instances of both branches of
`start_only_from_stopped_or_error`. -/
theorem start_only_from_stopped_or_error_witness :
    startBot BotState.RUNNING
      = { state := BotState.RUNNING, warned := true, mainLoopStarted := false } ∧
    startBot BotState.STOPPED
      = { state := BotState.RUNNING, warned := false, mainLoopStarted := true } :=
  ⟨(start_only_from_stopped_or_error BotState.RUNNING).1
      (by decide) (by decide),
   (start_only_from_stopped_or_error BotState.STOPPED).2 (Or.inl rfl)⟩

/-- Folding `appendError` grows the list by exactly the number of appended
messages: no append ever trims. -/
theorem foldl_appendError_length (l : List String) :
    ∀ init : List String,
      (l.foldl appendError init).length = init.length + l.length := by
  induction l with
  | nil => intro init; simp
  | cons a t ih =>
    intro init
    rw [List.foldl_cons, ih]
    simp [appendError]
    omega

/-- C4 counterexample: `appendError` performs no trimming — after the 101st
consecutive append (with no Health Check cycle in between) the errors list
has length 101 > 100, refuting the claim that the length is at most 100
immediately after each single append. -/
theorem append_overflow_cex :
    ((List.replicate 101 "x").foldl appendError []).length = 101 ∧
    ¬ ((List.replicate 101 "x").foldl appendError []).length ≤ 100 := by
  have h := foldl_appendError_length (List.replicate 101 "x") []
  simp only [List.length_replicate, List.length_nil] at h
  exact ⟨by omega, by omega⟩

/-- C4 (amended): trimming is not part of the append operation — `appendError`
always grows the list by one — it is a separate pass in the Health Check
cycle: whenever that pass observes length > 100 it replaces the list by its
most recent 50 entries in their original order, so immediately after a trim
the length is exactly 50 and the result is a suffix of the pre-trim list. -/
theorem health_trim_spec (errors : List String) (h : errors.length > 100) :
    (appendError errors "e").length = errors.length + 1 ∧
    healthTrim errors = errors.drop (errors.length - 50) ∧
    (healthTrim errors).length = 50 ∧
    errors = errors.take (errors.length - 50) ++ healthTrim errors := by
  refine ⟨by simp [appendError], ?_, ?_, ?_⟩
  · simp [healthTrim, h]
  · simp [healthTrim, h]
    omega
  · simp [healthTrim, h]

/-- C4 witness: `health_trim_spec` at a concrete 101-element list. -/
theorem health_trim_spec_witness :
    (List.replicate 101 "x").length > 100 ∧
    healthTrim (List.replicate 101 "x")
      = (List.replicate 101 "x").drop ((List.replicate 101 "x").length - 50) :=
  ⟨by decide, (health_trim_spec (List.replicate 101 "x") (by decide)).2.1⟩

/-- An open position as threaded through `_risk_monitor_loop`: keyed by its
symbol, carrying the mutable `stop_loss` field the trailing-stop update
writes. -/
structure Position where
  symbol : String
  stop_loss : ℚ
deriving DecidableEq, Repr

/-- The risk snapshot returned by `risk_manager.get_risk_metrics(capital)`:
the two fields `_risk_monitor_loop` reads. -/
structure RiskMetrics where
  current_drawdown : ℚ
  daily_pnl : ℚ
deriving DecidableEq, Repr

/-- Modelled from the spec: `pair_manager.close_all_positions(reason)` — the
pair-manager collaborator (its implementation is outside this file's source)
liquidates every open position, recording each closure with the given
reason; it is idempotent over an already-empty position set. -/
def closeAllPositions (reason : String) (ps : List Position) :
    List Position × List (String × String) :=
  ([], ps.map fun p => (p.symbol, reason))

/-- `_pause_trading`: sets the state to PAUSED, and if the
`close_on_pause` config flag is set, closes all positions with reason
"Protection drawdown". Returns (new state, remaining positions, closures). -/
def pauseTrading (close_on_pause : Bool) (ps : List Position) :
    BotState × List Position × List (String × String) :=
  if close_on_pause then
    let closed := closeAllPositions "Protection drawdown" ps
    (BotState.PAUSED, closed.1, closed.2)
  else
    (BotState.PAUSED, ps, [])

/-- Collaborator oracles consumed by one Risk Monitor cycle: the
`close_on_pause` config flag, `websocket_feed.get_ticker` (yielding the
ticker's `last` price when present) and `risk_manager.update_trailing_stop`. -/
structure RiskCycleEnv where
  close_on_pause : Bool
  getTicker : String → Option ℚ
  updateTrailingStop : Position → ℚ → Option ℚ

/-- Observable outcome of one Risk Monitor cycle body. -/
structure RiskCycleOut where
  state : BotState
  positions : List Position
  closures : List (String × String)
  ddWarn : Bool
  dailyWarn : Bool
deriving Repr

/-- One iteration body of `_risk_monitor_loop`: fetch the risk snapshot,
warn when drawdown > 0.15, call `_pause_trading` when drawdown > 0.20
(nested inside the 0.15 branch as in the source), warn when
`daily_pnl > 0.05`, then recompute trailing stops for every remaining open
position from the latest ticker price. -/
def riskMonitorCycleBody (env : RiskCycleEnv) (m : RiskMetrics)
    (st : BotState) (ps : List Position) : RiskCycleOut :=
  let ddWarn := decide (mkRat 15 100 < m.current_drawdown)
  let afterBreaker :=
    if mkRat 15 100 < m.current_drawdown then
      if mkRat 20 100 < m.current_drawdown then
        pauseTrading env.close_on_pause ps
      else (st, ps, [])
    else (st, ps, [])
  let dailyWarn := decide (mkRat 5 100 < m.daily_pnl)
  let updated := afterBreaker.2.1.map fun p =>
    match env.getTicker p.symbol with
    | some price =>
      match env.updateTrailingStop p price with
      | some newStop => { p with stop_loss := newStop }
      | none => p
    | none => p
  { state := afterBreaker.1, positions := updated,
    closures := afterBreaker.2.2, ddWarn := ddWarn, dailyWarn := dailyWarn }

/-- One step of `_risk_monitor_loop` including its `while` guard: in any
state other than RUNNING the loop terminates (`none`); otherwise it runs
one cycle body. -/
def riskMonitorStep (env : RiskCycleEnv) (m : RiskMetrics)
    (st : BotState) (ps : List Position) : Option RiskCycleOut :=
  if st = BotState.RUNNING then some (riskMonitorCycleBody env m st ps)
  else none

/-- C2 counterexample: with `close_on_pause` enabled and drawdown 0.21, the
cycle does close the open position, but the recorded reason is the source's
literal "Protection drawdown", not "drawdown protection" as the claim
states. -/
theorem drawdown_reason_cex :
    (riskMonitorCycleBody ⟨true, fun _ => none, fun _ _ => none⟩
        ⟨mkRat 21 100, 0⟩ BotState.RUNNING [⟨"BTCUSDT", 0⟩]).closures
      = [("BTCUSDT", "Protection drawdown")] ∧
    (riskMonitorCycleBody ⟨true, fun _ => none, fun _ _ => none⟩
        ⟨mkRat 21 100, 0⟩ BotState.RUNNING [⟨"BTCUSDT", 0⟩]).closures
      ≠ [("BTCUSDT", "drawdown protection")] := by
  decide

/-- C2 (amended): for every Risk Monitor cycle whose risk snapshot has
`current_drawdown > 0.20` while the state is RUNNING, the cycle transitions
the state to PAUSED, and with `close_on_pause` enabled it liquidates all
open positions with reason "Protection drawdown"; a second step with the
same drawdown finds the loop guard false (the loop ends without error), and
the cycle body itself is total on the empty position set, producing no
further closures. -/
theorem drawdown_pause_spec (env : RiskCycleEnv) (m : RiskMetrics)
    (ps : List Position)
    (hc : env.close_on_pause = true)
    (hd : mkRat 20 100 < m.current_drawdown) :
    riskMonitorStep env m BotState.RUNNING ps
      = some (riskMonitorCycleBody env m BotState.RUNNING ps) ∧
    (riskMonitorCycleBody env m BotState.RUNNING ps).state = BotState.PAUSED ∧
    (riskMonitorCycleBody env m BotState.RUNNING ps).positions = [] ∧
    (riskMonitorCycleBody env m BotState.RUNNING ps).closures
      = ps.map (fun p => (p.symbol, "Protection drawdown")) ∧
    riskMonitorStep env m BotState.PAUSED [] = none ∧
    (riskMonitorCycleBody env m BotState.PAUSED []).closures = [] := by
  have h15 : mkRat 15 100 < m.current_drawdown := lt_trans (by norm_num [mkRat, Rat.normalize]) hd
  refine ⟨by simp [riskMonitorStep], ?_, ?_, ?_, by simp [riskMonitorStep], ?_⟩ <;>
    simp [riskMonitorCycleBody, pauseTrading, closeAllPositions, h15, hd, hc]

/-- C2 witness: `drawdown_pause_spec` at drawdown 0.21 with one open
position and `close_on_pause` enabled. -/
theorem drawdown_pause_spec_witness :
    (riskMonitorCycleBody ⟨true, fun _ => none, fun _ _ => none⟩
        ⟨mkRat 21 100, mkRat 1 50⟩ BotState.RUNNING [⟨"ETHUSDT", 5⟩]).state
      = BotState.PAUSED ∧
    riskMonitorStep ⟨true, fun _ => none, fun _ _ => none⟩
        ⟨mkRat 21 100, mkRat 1 50⟩ BotState.PAUSED [] = none :=
  ⟨(drawdown_pause_spec ⟨true, fun _ => none, fun _ _ => none⟩
      ⟨mkRat 21 100, mkRat 1 50⟩ [⟨"ETHUSDT", 5⟩] rfl (by decide)).2.1,
   (drawdown_pause_spec ⟨true, fun _ => none, fun _ _ => none⟩
      ⟨mkRat 21 100, mkRat 1 50⟩ [⟨"ETHUSDT", 5⟩] rfl (by decide)).2.2.2.2.1⟩

/-- C6: the daily-loss check is warning-only — the cycle's resulting state,
positions and closures are independent of the `daily_pnl` value, and the
daily-loss warning is logged exactly when `daily_pnl > 0.05`. -/
theorem daily_loss_warning_only (env : RiskCycleEnv) (dd p q : ℚ)
    (st : BotState) (ps : List Position) :
    (riskMonitorCycleBody env ⟨dd, p⟩ st ps).state
      = (riskMonitorCycleBody env ⟨dd, q⟩ st ps).state ∧
    (riskMonitorCycleBody env ⟨dd, p⟩ st ps).positions
      = (riskMonitorCycleBody env ⟨dd, q⟩ st ps).positions ∧
    (riskMonitorCycleBody env ⟨dd, p⟩ st ps).closures
      = (riskMonitorCycleBody env ⟨dd, q⟩ st ps).closures ∧
    (riskMonitorCycleBody env ⟨dd, p⟩ st ps).dailyWarn
      = decide (mkRat 5 100 < p) :=
  ⟨rfl, rfl, rfl, rfl⟩

/-- `_check_daily_reset`: given the stored `_last_daily_reset` calendar date
(`none` models the attribute not existing yet) and the current calendar
date (encoded as an ordinal day number), returns the new stored date and
whether `risk_manager.reset_daily_counters()` was invoked: on first call it
only records the date; afterwards it resets exactly when the current date is
strictly greater than the stored one. -/
def checkDailyReset : Option Nat → Nat → Option Nat × Bool
  | none, today => (some today, false)
  | some d, today => if d < today then (some today, true) else (some d, false)

/-- The calendar dates at which `reset_daily_counters` fires across a
sequence of `_check_daily_reset` calls performed at the given cycle dates. -/
def resetDates : Option Nat → List Nat → List Nat
  | _, [] => []
  | lastReset, d :: rest =>
    let step := checkDailyReset lastReset d
    (if step.2 then [d] else []) ++ resetDates step.1 rest

/-- Starting from a stored date `m`, every fired reset date is strictly
greater than `m` and the fired dates are strictly increasing. -/
theorem resetDates_strict_mono (dates : List Nat) :
    ∀ m : Nat, (∀ x ∈ resetDates (some m) dates, m < x) ∧
      List.Chain' (· < ·) (resetDates (some m) dates) := by
  induction dates with
  | nil => intro m; simp [resetDates]
  | cons d rest ih =>
    intro m
    by_cases h : m < d
    · have hd : checkDailyReset (some m) d = (some d, true) := by
        simp [checkDailyReset, h]
      have hr := ih d
      have hunf : resetDates (some m) (d :: rest)
          = d :: resetDates (some d) rest := by
        simp [resetDates, hd]
      constructor
      · intro x hx
        rw [hunf] at hx
        rcases List.mem_cons.mp hx with rfl | hx
        · exact h
        · exact lt_trans h (hr.1 x hx)
      · rw [hunf, List.chain'_cons']
        exact ⟨fun y hy => hr.1 y (List.mem_of_mem_head? hy), hr.2⟩
    · have hd : checkDailyReset (some m) d = (some m, false) := by
        simp [checkDailyReset, h]
      simpa [resetDates, hd] using ih m

/-- Across any sequence of `_check_daily_reset` calls, the fired reset
dates are strictly increasing, whatever the initial stored date. -/
theorem resetDates_chain (lr : Option Nat) (dates : List Nat) :
    List.Chain' (· < ·) (resetDates lr dates) := by
  cases lr with
  | some m => exact (resetDates_strict_mono dates m).2
  | none =>
    cases dates with
    | nil => simp [resetDates]
    | cons d rest =>
      have hd : checkDailyReset none d = (some d, false) := rfl
      simpa [resetDates, hd] using (resetDates_strict_mono rest d).2

/-- Liveness readings one Health Check cycle takes from its collaborators:
`websocket_feed.get_metrics()` (connected flag, average latency in ms) and
`exchange.connected`. -/
structure HealthEnv where
  wsConnected : Bool
  wsAvgLatency : ℚ
  exchangeConnected : Bool

/-- Calls a Health Check cycle makes on its collaborators. -/
inductive HealthAction where
  | wsReconnect
  | exchangeReconnect
  | dailyReset
deriving DecidableEq, Repr

/-- Observable outcome of one Health Check cycle body. -/
structure HealthCycleOut where
  actions : List HealthAction
  errors : List String
  lastReset : Option Nat
  latencyWarn : Bool
deriving Repr

/-- One iteration body of `_health_check_loop`: reconnect the websocket
feed if its metrics report it disconnected, warn if the average latency
exceeds 200ms, reconnect the exchange if it reports disconnected, trim the
errors list when it exceeds 100 entries, then run `_check_daily_reset`. -/
def healthCheckCycleBody (env : HealthEnv) (errors : List String)
    (lastReset : Option Nat) (today : Nat) : HealthCycleOut :=
  let wsActs := if env.wsConnected then [] else [HealthAction.wsReconnect]
  let latencyWarn := decide ((200 : ℚ) < env.wsAvgLatency)
  let exActs :=
    if env.exchangeConnected then [] else [HealthAction.exchangeReconnect]
  let trimmed := healthTrim errors
  let reset := checkDailyReset lastReset today
  let resetActs := if reset.2 then [HealthAction.dailyReset] else []
  { actions := wsActs ++ exActs ++ resetActs, errors := trimmed,
    lastReset := reset.1, latencyWarn := latencyWarn }

/-- One step of `_health_check_loop` including its `while` guard: in any
state other than RUNNING the loop terminates. -/
def healthCheckStep (env : HealthEnv) (errors : List String)
    (lastReset : Option Nat) (today : Nat) (st : BotState) :
    Option HealthCycleOut :=
  if st = BotState.RUNNING then
    some (healthCheckCycleBody env errors lastReset today)
  else none

/-- C7: in every Health Check cycle, the feed reconnect is invoked exactly
once when the feed reports disconnected and never otherwise, and likewise
and independently for the exchange; when both report connected no connect
operation is invoked. -/
theorem reconnect_exactly_once_per_cycle (env : HealthEnv)
    (errors : List String) (lr : Option Nat) (today : Nat) :
    ((healthCheckCycleBody env errors lr today).actions.count
        HealthAction.wsReconnect = if env.wsConnected then 0 else 1) ∧
    ((healthCheckCycleBody env errors lr today).actions.count
        HealthAction.exchangeReconnect
      = if env.exchangeConnected then 0 else 1) := by
  have hr : ∀ b : Bool,
      ((if b then [HealthAction.dailyReset] else []).count
        HealthAction.wsReconnect = 0) ∧
      ((if b then [HealthAction.dailyReset] else []).count
        HealthAction.exchangeReconnect = 0) := by decide
  cases hw : env.wsConnected <;> cases hx : env.exchangeConnected <;>
    simp [healthCheckCycleBody, hw, hx, List.count_append,
      (hr (checkDailyReset lr today).2).1, (hr (checkDailyReset lr today).2).2,
      List.count_cons, List.count_nil]

/-- C8: across any sequence of Health Check cycles, `reset_daily_counters`
fires at most once per distinct calendar date (whatever the initial stored
date and however many cycles share a date), it fires again on the first
check whose date strictly exceeds the stored one, it does not fire again
within the same date, and the Health Check cycle performs exactly the
`_check_daily_reset` update. -/
theorem daily_reset_once_per_date (lr : Option Nat) (dates : List Nat)
    (d : Nat) (m today : Nat) (h : m < today) (env : HealthEnv)
    (errs : List String) :
    (resetDates lr dates).count d ≤ 1 ∧
    checkDailyReset (some m) today = (some today, true) ∧
    (∀ t : Nat, checkDailyReset (some t) t = (some t, false)) ∧
    (healthCheckCycleBody env errs lr today).lastReset
      = (checkDailyReset lr today).1 ∧
    (HealthAction.dailyReset ∈ (healthCheckCycleBody env errs lr today).actions
      ↔ (checkDailyReset lr today).2 = true) := by
  refine ⟨?_, by simp [checkDailyReset, h], by simp [checkDailyReset], rfl, ?_⟩
  · have hpw : (resetDates lr dates).Pairwise (· < ·) :=
      List.chain'_iff_pairwise.mp (resetDates_chain lr dates)
    have hnd : (resetDates lr dates).Nodup :=
      hpw.imp fun hab => Nat.ne_of_lt hab
    exact List.nodup_iff_count_le_one.mp hnd d
  · cases hfired : (checkDailyReset lr today).2 <;>
      cases hw : env.wsConnected <;> cases hx : env.exchangeConnected <;>
        simp [healthCheckCycleBody, hfired, hw, hx]

/-- C8 witness: `daily_reset_once_per_date` at a concrete cycle-date
sequence (three checks on date 5, then two on date 6, starting fresh). -/
theorem daily_reset_once_per_date_witness :
    (resetDates none [5, 5, 5, 6, 6]).count 6 ≤ 1 ∧
    checkDailyReset (some 5) 6 = (some 6, true) :=
  ⟨(daily_reset_once_per_date none [5, 5, 5, 6, 6] 6 5 6 (by decide)
      ⟨true, 0, true⟩ []).1,
   (daily_reset_once_per_date none [5, 5, 5, 6, 6] 6 5 6 (by decide)
      ⟨true, 0, true⟩ []).2.1⟩

/-- The `DataType` enum of the websocket feed, as consumed by
`_handle_market_update`. -/
inductive DataType where
  | TICKER
  | TRADES
  | ORDERBOOK
deriving DecidableEq, Repr

/-- A `MarketUpdate` from the websocket feed: symbol, data type, opaque
payload and measured latency in milliseconds. -/
structure MarketUpdate where
  symbol : String
  data_type : DataType
  data : String
  latency_ms : ℚ
deriving DecidableEq, Repr

/-- Observable outcome of `_handle_market_update`: the ticker-cache write
(for TICKER updates), the order-book update call (for ORDERBOOK updates),
whether the high-latency warning was logged, and the new value of the
`ws_updates` metric. -/
structure HandlerOut where
  tickerCacheWrite : Option (String × String)
  orderbookUpdateCall : Option (String × String)
  latencyWarn : Bool
  ws_updates : Nat
deriving DecidableEq, Repr

/-- `_handle_market_update`: write the ticker cache on TICKER updates, call
the order-book update hook on ORDERBOOK updates, log a warning when
`latency_ms > 200`, and set the `ws_updates` metric to its previous value
(defaulting to 0 when absent) plus one. -/
def handleMarketUpdate (u : MarketUpdate) (ws_updates : Option Nat) :
    HandlerOut :=
  let tickerWrite :=
    if u.data_type = DataType.TICKER then some (u.symbol, u.data) else none
  let obCall :=
    if u.data_type = DataType.ORDERBOOK then some (u.symbol, u.data) else none
  let warn := decide ((200 : ℚ) < u.latency_ms)
  { tickerCacheWrite := tickerWrite, orderbookUpdateCall := obCall,
    latencyWarn := warn, ws_updates := ws_updates.getD 0 + 1 }

/-- C9: every processed market update increments the `ws_updates` counter
by exactly one (from its previous value, defaulting to 0 when the metric is
absent), independent of the latency value and of the data type, and the
high-latency warning is logged exactly when the latency exceeds 200ms. -/
theorem market_update_counter_and_warning (u : MarketUpdate)
    (ws_updates : Option Nat) :
    (handleMarketUpdate u ws_updates).ws_updates = ws_updates.getD 0 + 1 ∧
    (handleMarketUpdate u ws_updates).latencyWarn
      = decide ((200 : ℚ) < u.latency_ms) :=
  ⟨rfl, rfl⟩

/-- The mutable `BotStatus` fields read or written by `_save_state`,
`_performance_tracker_loop` and `shutdown`. -/
structure BotStatusM where
  state : BotState
  total_trades : Nat
  open_positions : Nat
  total_pnl : ℚ
  daily_pnl : ℚ
  errors : List String
deriving DecidableEq, Repr

/-- The `.value` string of each `BotState` enum member. -/
def stateValue : BotState → String
  | BotState.INITIALIZING => "initializing"
  | BotState.RUNNING => "running"
  | BotState.PAUSED => "paused"
  | BotState.STOPPING => "stopping"
  | BotState.STOPPED => "stopped"
  | BotState.ERROR => "error"

/-- The JSON document `_save_state` writes to `data/bot_state.json`. -/
structure Snapshot where
  timestamp : String
  state : String
  total_trades : Nat
  open_positions : Nat
  total_pnl : ℚ
  daily_pnl : ℚ
  positions : List Position
  errors : List String
deriving DecidableEq, Repr

/-- Failure oracle for one `_save_state` invocation: whether the pair
manager is present, whether building the snapshot raises (for example
inside `pair_manager.get_positions()`), and whether the filesystem write
raises. -/
structure SaveEnv where
  pairManagerPresent : Bool
  buildFails : Bool
  writeFails : Bool
deriving DecidableEq, Repr

/-- Outcome of `_save_state`: returned early (no pair manager), wrote the
snapshot, or caught an exception and only logged it. -/
inductive SaveOutcome where
  | skipped
  | saved (snap : Snapshot)
  | failureAbsorbed
deriving DecidableEq, Repr

/-- The body of the `try` block of `_save_state`, with exceptions surfaced
in `Except`: return early when the pair manager is absent, then build the
snapshot (state value string, counters, positions from the pair manager,
the last 10 errors) and write it. -/
def saveStateBody (env : SaveEnv) (s : BotStatusM) (positions : List Position)
    (now : String) : Except String (Option Snapshot) :=
  if !env.pairManagerPresent then Except.ok none
  else if env.buildFails then Except.error "build"
  else
    let snap : Snapshot :=
      { timestamp := now, state := stateValue s.state,
        total_trades := s.total_trades, open_positions := s.open_positions,
        total_pnl := s.total_pnl, daily_pnl := s.daily_pnl,
        positions := positions,
        errors := s.errors.drop (s.errors.length - 10) }
    if env.writeFails then Except.error "write" else Except.ok (some snap)

/-- `_save_state`: runs `saveStateBody` under the `try/except` that logs
and swallows any exception; no status field is written on any path, so the
status component of the result is the input status. -/
def saveState (env : SaveEnv) (s : BotStatusM) (positions : List Position)
    (now : String) : BotStatusM × SaveOutcome :=
  match saveStateBody env s positions now with
  | Except.ok none => (s, SaveOutcome.skipped)
  | Except.ok (some snap) => (s, SaveOutcome.saved snap)
  | Except.error _ => (s, SaveOutcome.failureAbsorbed)

/-- On every path of `_save_state` the status register is returned
unchanged. -/
theorem saveState_fst (env : SaveEnv) (s : BotStatusM) (ps : List Position)
    (now : String) : (saveState env s ps now).1 = s := by
  unfold saveState
  split <;> rfl

/-- The aggregate returned by `pair_manager.get_performance_summary()` as
read by `_performance_tracker_loop`. -/
structure PerfSummary where
  total_trades : Nat
  total_pnl : ℚ
  win_rate : ℚ
deriving DecidableEq, Repr

/-- One iteration body of `_performance_tracker_loop`: copy the performance
summary into the status, recompute the daily P&L, and persist a snapshot
when the `save_state` config flag (default true) is enabled. Returns the
new status, the save outcome, and whether a save was attempted. -/
def perfTrackerCycleBody (perf : PerfSummary) (dailyPnl : ℚ)
    (saveFlag : Bool) (env : SaveEnv) (s : BotStatusM)
    (positions : List Position) (now : String) :
    BotStatusM × SaveOutcome × Bool :=
  let s1 := { s with total_trades := perf.total_trades,
                     total_pnl := perf.total_pnl, daily_pnl := dailyPnl }
  if saveFlag then
    let saved := saveState env s1 positions now
    (saved.1, saved.2, true)
  else (s1, SaveOutcome.skipped, false)

/-- Failure oracle for one `shutdown()` invocation: the `_save_state`
oracle, whether each connection object is non-None, and whether its
disconnect/close call raises. -/
structure ShutdownEnv where
  save : SaveEnv
  feedPresent : Bool
  disconnectFails : Bool
  exchangePresent : Bool
  closeFails : Bool
deriving DecidableEq, Repr

/-- The observable steps of the `shutdown()` sequence, in execution
order. -/
inductive ShutdownStep where
  | setStopping
  | saveAttempt
  | feedDisconnect
  | exchangeClose
  | setStopped
  | setError
  | signalCompletion
deriving DecidableEq, Repr

/-- Result of `shutdown()`: the final status, the save outcome, the ordered
trace of executed steps, and whether the shutdown event was set. -/
structure ShutdownOut where
  status : BotStatusM
  saveOutcome : SaveOutcome
  trace : List ShutdownStep
  eventSet : Bool
deriving DecidableEq, Repr

/-- `shutdown()`: set state to STOPPING, call `_save_state` (which absorbs
its own failures), disconnect the websocket feed if present, close the
exchange if present, set state to STOPPED; an exception escaping the
disconnect or close call is caught by the `except` block and sets state to
ERROR; the `finally` block sets the shutdown event on every path. -/
def shutdown (env : ShutdownEnv) (s : BotStatusM) (positions : List Position)
    (now : String) : ShutdownOut :=
  let s1 := { s with state := BotState.STOPPING }
  let saved := saveState env.save s1 positions now
  let pre := [ShutdownStep.setStopping, ShutdownStep.saveAttempt]
  if env.feedPresent && env.disconnectFails then
    { status := { saved.1 with state := BotState.ERROR },
      saveOutcome := saved.2,
      trace := pre ++ [ShutdownStep.setError, ShutdownStep.signalCompletion],
      eventSet := true }
  else
    let pre2 :=
      pre ++ (if env.feedPresent then [ShutdownStep.feedDisconnect] else [])
    if env.exchangePresent && env.closeFails then
      { status := { saved.1 with state := BotState.ERROR },
        saveOutcome := saved.2,
        trace := pre2 ++ [ShutdownStep.setError, ShutdownStep.signalCompletion],
        eventSet := true }
    else
      { status := { saved.1 with state := BotState.STOPPED },
        saveOutcome := saved.2,
        trace := pre2
          ++ (if env.exchangePresent then [ShutdownStep.exchangeClose] else [])
          ++ [ShutdownStep.setStopped, ShutdownStep.signalCompletion],
        eventSet := true }

/-- C3 counterexample: a failing snapshot write during the shutdown
sequence (the filesystem write raises inside `_save_state`) does not set
the state to ERROR — the failure is absorbed inside `_save_state` and the
shutdown ends in STOPPED — refuting "any failure during the sequence sets
state to ERROR instead of STOPPED". -/
theorem shutdown_save_failure_cex :
    (shutdown ⟨⟨true, false, true⟩, true, false, true, false⟩
        ⟨BotState.RUNNING, 0, 0, 0, 0, []⟩ [] "t").saveOutcome
      = SaveOutcome.failureAbsorbed ∧
    (shutdown ⟨⟨true, false, true⟩, true, false, true, false⟩
        ⟨BotState.RUNNING, 0, 0, 0, 0, []⟩ [] "t").status.state
      = BotState.STOPPED ∧
    (shutdown ⟨⟨true, false, true⟩, true, false, true, false⟩
        ⟨BotState.RUNNING, 0, 0, 0, 0, []⟩ [] "t").status.state
      ≠ BotState.ERROR := by
  decide

/-- C3 (amended): every `shutdown()` runs set-STOPPING, the snapshot
attempt, the feed disconnect, the exchange close and set-STOPPED in that
order (shown for the failure-free run with both connections present); any
exception escaping the disconnect or close step sets state to ERROR instead
of STOPPED (snapshot failures are absorbed inside `_save_state` and leave
the sequence on its success path); in every case — success, failure, or a
second invocation on the resulting status — the completion signal is set
and the final state is STOPPED or ERROR, never INITIALIZING or RUNNING. -/
theorem shutdown_sequence_spec (env : ShutdownEnv) (s : BotStatusM)
    (ps : List Position) (now : String) :
    (shutdown env s ps now).eventSet = true ∧
    ((shutdown env s ps now).status.state = BotState.STOPPED ∨
     (shutdown env s ps now).status.state = BotState.ERROR) ∧
    (env.disconnectFails = false → env.closeFails = false →
      (shutdown env s ps now).status.state = BotState.STOPPED) ∧
    ((env.feedPresent = true ∧ env.disconnectFails = true) ∨
     (env.exchangePresent = true ∧ env.closeFails = true) →
      (shutdown env s ps now).status.state = BotState.ERROR) ∧
    (env.feedPresent = true → env.exchangePresent = true →
     env.disconnectFails = false → env.closeFails = false →
      (shutdown env s ps now).trace
        = [ShutdownStep.setStopping, ShutdownStep.saveAttempt,
           ShutdownStep.feedDisconnect, ShutdownStep.exchangeClose,
           ShutdownStep.setStopped, ShutdownStep.signalCompletion]) ∧
    (shutdown env (shutdown env s ps now).status ps now).eventSet = true ∧
    ((shutdown env (shutdown env s ps now).status ps now).status.state
        = BotState.STOPPED ∨
     (shutdown env (shutdown env s ps now).status ps now).status.state
        = BotState.ERROR) := by
  obtain ⟨sv, fp, df, ep, cf⟩ := env
  cases fp <;> cases df <;> cases ep <;> cases cf <;>
    simp [shutdown]

/-- C3 witness: `shutdown_sequence_spec` on a failure-free run with both
connections present. -/
theorem shutdown_sequence_spec_witness :
    (shutdown ⟨⟨true, false, false⟩, true, false, true, false⟩
        ⟨BotState.RUNNING, 3, 1, 0, 0, ["e1"]⟩ [] "t").status.state
      = BotState.STOPPED ∧
    (shutdown ⟨⟨true, false, false⟩, true, false, true, false⟩
        ⟨BotState.RUNNING, 3, 1, 0, 0, ["e1"]⟩ [] "t").trace
      = [ShutdownStep.setStopping, ShutdownStep.saveAttempt,
         ShutdownStep.feedDisconnect, ShutdownStep.exchangeClose,
         ShutdownStep.setStopped, ShutdownStep.signalCompletion] :=
  ⟨(shutdown_sequence_spec ⟨⟨true, false, false⟩, true, false, true, false⟩
      ⟨BotState.RUNNING, 3, 1, 0, 0, ["e1"]⟩ [] "t").2.2.1 rfl rfl,
   (shutdown_sequence_spec ⟨⟨true, false, false⟩, true, false, true, false⟩
      ⟨BotState.RUNNING, 3, 1, 0, 0, ["e1"]⟩ [] "t").2.2.2.2.1
      rfl rfl rfl rfl⟩

/-- C10: `_save_state` always returns normally with the status register
(state, errors, and every other field) unchanged; any exception raised
while building or writing the snapshot, and the absent-pair-manager case,
are absorbed inside the operation; consequently a persistence failure on
its own never sets the state to ERROR — `shutdown` with a failing save but
working disconnect/close still ends in STOPPED, and a Performance Tracker
cycle leaves the state and errors untouched whatever the save oracle. -/
theorem save_state_never_fails (env : SaveEnv) (s : BotStatusM)
    (ps : List Position) (now : String) :
    (saveState env s ps now).1 = s ∧
    (∀ e : String, saveStateBody env s ps now = Except.error e →
      (saveState env s ps now).2 = SaveOutcome.failureAbsorbed) ∧
    (env.pairManagerPresent = false →
      (saveState env s ps now).2 = SaveOutcome.skipped) ∧
    (∀ fp ep : Bool, (shutdown ⟨env, fp, false, ep, false⟩ s ps now).status.state
      = BotState.STOPPED) ∧
    (∀ (perf : PerfSummary) (dp : ℚ) (flag : Bool),
      (perfTrackerCycleBody perf dp flag env s ps now).1.state = s.state ∧
      (perfTrackerCycleBody perf dp flag env s ps now).1.errors = s.errors) := by
  refine ⟨saveState_fst env s ps now, ?_, ?_, ?_, ?_⟩
  · intro e he
    simp [saveState, he]
  · intro hp
    simp [saveState, saveStateBody, hp]
  · intro fp ep
    cases fp <;> cases ep <;> simp [shutdown]
  · intro perf dp flag
    cases flag <;> simp [perfTrackerCycleBody, saveState_fst]

/-- C10 witness: `save_state_never_fails` at an oracle whose snapshot
build raises, and at a shutdown whose save write raises. -/
theorem save_state_never_fails_witness :
    (saveState ⟨true, true, false⟩ ⟨BotState.RUNNING, 0, 0, 0, 0, []⟩ [] "t").2
      = SaveOutcome.failureAbsorbed ∧
    (shutdown ⟨⟨true, true, false⟩, true, false, true, false⟩
        ⟨BotState.RUNNING, 0, 0, 0, 0, []⟩ [] "t").status.state
      = BotState.STOPPED :=
  ⟨(save_state_never_fails ⟨true, true, false⟩
      ⟨BotState.RUNNING, 0, 0, 0, 0, []⟩ [] "t").2.1 "build" rfl,
   (save_state_never_fails ⟨true, true, false⟩
      ⟨BotState.RUNNING, 0, 0, 0, 0, []⟩ [] "t").2.2.2.1 true true⟩
